import Mathlib

/-!
Verification of the CrashDashboard core — the signal classification,
scoring, diff and history engine of `dashboard.py` — against its
natural-language specification.  Every definition below is a shallow
embedding of the corresponding function or code block in `dashboard.py`;
line numbers in doc comments refer to that file.
-/

/-- The discrete risk tier of a signal: the `Status` strings
`"Green" | "Amber" | "Red" | "Unknown"` used throughout `dashboard.py`. -/
inductive Tier
  | Green
  | Amber
  | Red
  | Unknown
deriving DecidableEq

/-- The `order` dict of `change_marker` (line 228):
`{"Green": 0, "Amber": 1, "Red": 2}`; `Unknown` is absent from the dict. -/
def tierOrder : Tier → Option ℕ
  | Tier.Green => some 0
  | Tier.Amber => some 1
  | Tier.Red => some 2
  | Tier.Unknown => none

/-- `order.get(t, 1)`: dict lookup with default `1` (lines 229-230). -/
def orderGet (t : Tier) : ℕ := (tierOrder t).getD 1

/-- Shallow embedding of `change_marker(prev, curr)` (lines 225-231).
`prev` is `last_map.get(signal, None)`, hence an `Option Tier`; the
result is the marker string shown in the `Change` column. -/
def change_marker (prev : Option Tier) (curr : Tier) : String :=
  match prev with
  | none => "•"
  | some p =>
    if p = Tier.Unknown then "•"
    else if curr = Tier.Unknown then "•"
    else if orderGet curr > orderGet p then "▲"
    else if orderGet curr < orderGet p then "▼"
    else "•"

/-- Python's built-in `round` applied to the exact rational value of the
scaled score: round to the nearest integer, ties to the even integer
(banker's rounding).  For every value reachable in `crash_prob`
(`raw_score ≤ 110`, divisor in `1..10`) the double-precision product the
source computes is either exactly the rational value (divisors 1, 2, 4,
5, 8, 10, whose reciprocals scaled by 10 are dyadic) or lies within
`2⁻⁴⁰` of a rational that is at least `1/18` away from every tie
boundary (odd divisors and 6), so rounding the float and rounding the
exact rational agree. -/
def pyRound (q : ℚ) : ℤ :=
  if q - ⌊q⌋ < 1/2 then ⌊q⌋
  else if 1/2 < q - ⌊q⌋ then ⌊q⌋ + 1
  else if ⌊q⌋ % 2 = 0 then ⌊q⌋ else ⌊q⌋ + 1

/-- `known = signals[signals["Status"] != "Unknown"]` (line 237), as the
list of statuses of the rows that survive the filter. -/
def knownOf (ts : List Tier) : List Tier := ts.filter (fun t => t ≠ Tier.Unknown)

/-- `amber = (known["Status"] == "Amber").sum()` (line 238). -/
def amberCount (ts : List Tier) : ℕ :=
  ((knownOf ts).filter (fun t => t = Tier.Amber)).length

/-- `red = (known["Status"] == "Red").sum()` (line 239). -/
def redCount (ts : List Tier) : ℕ :=
  ((knownOf ts).filter (fun t => t = Tier.Red)).length

/-- `raw_score = 10 + amber*5 + red*10` (line 240). -/
def raw_score (ts : List Tier) : ℕ := 10 + amberCount ts * 5 + redCount ts * 10

/-- `scale = 10 / max(1, len(known))` (line 243). -/
def scaleOf (ts : List Tier) : ℚ := 10 / ((max 1 (knownOf ts).length : ℕ) : ℚ)

/-- `crash_prob = min(int(round(raw_score * scale)), 100)` (line 244). -/
def crash_prob (ts : List Tier) : ℤ :=
  min (pyRound ((raw_score ts : ℚ) * scaleOf ts)) 100

/-- `classify_nvda_pe` (lines 178-180). -/
def classify_nvda_pe : Option ℚ → Tier
  | none => Tier.Unknown
  | some v => if v < 40 then Tier.Green else if v ≤ 55 then Tier.Amber else Tier.Red

/-- `classify_vix` (lines 182-184). -/
def classify_vix : Option ℚ → Tier
  | none => Tier.Unknown
  | some v => if v < 20 then Tier.Green else if v ≤ 25 then Tier.Amber else Tier.Red

/-- `classify_yield(v, threshold)` (lines 186-188): `Red` if `v >= threshold`
else `Amber`; there is no Green band. -/
def classify_yield : Option ℚ → ℚ → Tier
  | none, _ => Tier.Unknown
  | some v, threshold => if v ≥ threshold then Tier.Red else Tier.Amber

/-- `classify_def_spend` (lines 198-200). -/
def classify_def_spend : Option ℚ → Tier
  | none => Tier.Unknown
  | some v => if v < 20 then Tier.Green else Tier.Red

/-- `classify_usd_share` (lines 202-204): inverted sense, a higher reserve
share is the safe reading. -/
def classify_usd_share : Option ℚ → Tier
  | none => Tier.Unknown
  | some v => if v ≥ 57 then Tier.Green else Tier.Red

/-- The persisted snapshot record `{"crash_probability": ..., "statuses": ...}`
written by `save_last_snapshot` (line 39). -/
structure Snapshot where
  crash_probability : Option ℤ
  statuses : List (String × Tier)
deriving DecidableEq

/-- The default returned by `load_last_snapshot` when the file is absent
(line 35): `{"crash_probability": None, "statuses": {}}`. -/
def emptySnapshot : Snapshot := { crash_probability := none, statuses := [] }

/-- The on-disk state of `last_snapshot.json` as `load_last_snapshot`
finds it: absent (`os.path.exists` is false), present but malformed
(`json.load` raises `JSONDecodeError`), or present with valid content. -/
inductive SnapshotFile
  | missing
  | corrupt
  | valid (s : Snapshot)

/-- Shallow embedding of `load_last_snapshot()` (lines 31-35).  The body
has no `try`/`except`: when the file exists, `json.load` runs bare, so a
malformed file makes the call raise, modelled as `Except.error`. -/
def load_last_snapshot : SnapshotFile → Except String Snapshot
  | SnapshotFile.missing => Except.ok emptySnapshot
  | SnapshotFile.corrupt => Except.error "JSONDecodeError"
  | SnapshotFile.valid s => Except.ok s

/-- The outcome of the underlying file write attempted by
`save_last_snapshot`. -/
inductive WriteOutcome
  | success
  | failure

/-- Shallow embedding of `save_last_snapshot(crash_prob, status_map)`
(lines 37-39).  The body has no `try`/`except`: `open`/`json.dump` run
bare, so a failed write raises (modelled as `Except.error`); a
successful write leaves the dumped snapshot on disk (`Except.ok`). -/
def save_last_snapshot (w : WriteOutcome) (prob : ℤ)
    (status_map : List (String × Tier)) : Except String Snapshot :=
  match w with
  | WriteOutcome.success => Except.ok { crash_probability := some prob, statuses := status_map }
  | WriteOutcome.failure => Except.error "OSError"

/-- One row of `crash_history.csv`: a `(date, crash_probability)` pair.
ISO-8601 date strings compare lexicographically exactly as the days they
denote compare chronologically, so dates are modelled as naturals with
the same order; the dedup filter only uses equality of dates. -/
abbrev HistRow := ℕ × ℤ

/-- Shallow embedding of `dedup_append_history(date_str, prob)`
(lines 41-50).  `file` is the current content of `crash_history.csv`
(`none` when the file does not exist).  Rows with the same date are
dropped, then the new row is concatenated at the end — the code never
sorts. -/
def dedup_append_history (date : ℕ) (prob : ℤ) (file : Option (List HistRow)) :
    List HistRow :=
  match file with
  | some hist => hist.filter (fun r => r.1 ≠ date) ++ [(date, prob)]
  | none => [(date, prob)]

-- ======================= helper lemmas =======================

/-- `pyRound` is the identity on integers. -/
theorem pyRound_intCast (n : ℤ) : pyRound (n : ℚ) = n := by
  simp [pyRound]

/-- `pyRound` of a non-negative rational is non-negative. -/
theorem pyRound_nonneg (q : ℚ) (h : 0 ≤ q) : 0 ≤ pyRound q := by
  have h0 : (0 : ℤ) ≤ ⌊q⌋ := Int.floor_nonneg.mpr h
  unfold pyRound
  split_ifs <;> omega

-- ======================= claims =======================

/-- C1: for every assignment of tiers to the 10 signals, the computed
crash probability is an integer with `0 ≤ score ≤ 100`. -/
theorem C1_score_in_range (ts : List Tier) (_h : ts.length = 10) :
    0 ≤ crash_prob ts ∧ crash_prob ts ≤ 100 := by
  constructor
  · refine le_min (pyRound_nonneg _ ?_) (by norm_num)
    apply mul_nonneg (Nat.cast_nonneg _)
    unfold scaleOf
    apply div_nonneg (by norm_num) (Nat.cast_nonneg _)
  · exact min_le_right _ _

/-- Witness for C1 at the all-Red assignment of the 10 signals. -/
theorem C1_witness :
    (List.replicate 10 Tier.Red).length = 10 ∧
    0 ≤ crash_prob (List.replicate 10 Tier.Red) ∧
    crash_prob (List.replicate 10 Tier.Red) ≤ 100 :=
  ⟨rfl, C1_score_in_range (List.replicate 10 Tier.Red) rfl⟩

/-- C2: if none of the 10 signals is Unknown, the score equals
`min(10 + 5*amber_count + 10*red_count, 100)` exactly. -/
theorem C2_all_known (ts : List Tier) (h10 : ts.length = 10)
    (hk : Tier.Unknown ∉ ts) :
    crash_prob ts = min ((10 : ℤ) + 5 * amberCount ts + 10 * redCount ts) 100 := by
  have hfil : knownOf ts = ts := by
    unfold knownOf
    refine List.filter_eq_self.mpr ?_
    intro a ha
    have hne : a ≠ Tier.Unknown := fun e => hk (e ▸ ha)
    simpa using hne
  have hscale : scaleOf ts = 1 := by
    unfold scaleOf
    rw [hfil, h10]
    norm_num
  have hcast : ((raw_score ts : ℚ)) = (((raw_score ts : ℤ)) : ℚ) := by push_cast; ring
  unfold crash_prob
  rw [hscale, mul_one, hcast, pyRound_intCast]
  congr 1
  unfold raw_score
  push_cast
  ring

/-- The concrete tier assignment of C2: 3 Amber, 1 Red, 6 Green. -/
def exKnown : List Tier :=
  [Tier.Amber, Tier.Amber, Tier.Amber, Tier.Red, Tier.Green, Tier.Green,
   Tier.Green, Tier.Green, Tier.Green, Tier.Green]

/-- Witness for C2: 3 Amber, 1 Red, 6 Green, all known, gives score 35. -/
theorem C2_witness :
    exKnown.length = 10 ∧ Tier.Unknown ∉ exKnown ∧ crash_prob exKnown = 35 :=
  ⟨rfl, by decide, (C2_all_known exKnown rfl (by decide)).trans (by decide)⟩

/-- C3: when some signals are Unknown (and at least one is known), the
score is `min(round(raw_score * (10 / known_count)), 100)` with the
amber and red counts taken over the non-Unknown signals only. -/
theorem C3_rescaled (ts : List Tier) (_hu : Tier.Unknown ∈ ts)
    (hk : 0 < (knownOf ts).length) :
    crash_prob ts =
      min (pyRound (((10 : ℚ) + 5 * amberCount ts + 10 * redCount ts) *
        (10 / ((knownOf ts).length : ℚ)))) 100 := by
  have hmax : max 1 (knownOf ts).length = (knownOf ts).length := max_eq_right hk
  have hcast : ((raw_score ts : ℚ)) = (10 : ℚ) + 5 * amberCount ts + 10 * redCount ts := by
    unfold raw_score
    push_cast
    ring
  unfold crash_prob scaleOf
  rw [hmax, hcast]

/-- The concrete tier assignment of C3: 2 Unknown, 2 Amber, 1 Red,
5 Green. -/
def exPartial : List Tier :=
  [Tier.Unknown, Tier.Unknown, Tier.Amber, Tier.Amber, Tier.Red,
   Tier.Green, Tier.Green, Tier.Green, Tier.Green, Tier.Green]

/-- Witness for C3: with 2 Unknown, 2 Amber, 1 Red among the 8 known
signals, the raw score 30 is rescaled to 37.5 and rounded to 38. -/
theorem C3_witness :
    Tier.Unknown ∈ exPartial ∧ 0 < (knownOf exPartial).length ∧
    crash_prob exPartial = 38 := by
  refine ⟨by decide, by decide, ?_⟩
  rw [C3_rescaled exPartial (by decide) (by decide)]
  have ha : amberCount exPartial = 2 := by decide
  have hr : redCount exPartial = 1 := by decide
  have hl : (knownOf exPartial).length = 8 := by decide
  rw [ha, hr, hl]
  norm_num [pyRound]

/-- C10: the score is total even when every signal is Unknown — the
divisor is guarded by `max(1, known_count)` and the result is exactly
100 (raw score 10 times scale 10, clamped at 100). -/
theorem C10_total_all_unknown (ts : List Tier) (h : ∀ t ∈ ts, t = Tier.Unknown) :
    crash_prob ts = 100 := by
  have hfil : knownOf ts = [] := by
    unfold knownOf
    refine List.filter_eq_nil_iff.mpr ?_
    intro a ha
    simpa using h a ha
  have ha : amberCount ts = 0 := by unfold amberCount; rw [hfil]; rfl
  have hr : redCount ts = 0 := by unfold redCount; rw [hfil]; rfl
  unfold crash_prob raw_score scaleOf
  rw [hfil, ha, hr]
  norm_num [pyRound]

/-- Witness for C10 at the assignment of Unknown to all 10 signals. -/
theorem C10_witness :
    (∀ t ∈ List.replicate 10 Tier.Unknown, t = Tier.Unknown) ∧
    crash_prob (List.replicate 10 Tier.Unknown) = 100 :=
  ⟨by decide, C10_total_all_unknown (List.replicate 10 Tier.Unknown) (by decide)⟩

/-- C4: the change marker is unchanged (`•`) when there is no prior tier,
the prior tier is Unknown, or the tiers are equal; it is worsened (`▲`)
exactly when both tiers have ordinal ranks in the `order` dict and the
current rank is strictly greater, and improved (`▼`) exactly when it is
strictly lower; Green-then-Red worsens and Red-then-Green improves. -/
theorem C4_change_marker_semantics :
    (∀ curr : Tier, change_marker none curr = "•") ∧
    (∀ curr : Tier, change_marker (some Tier.Unknown) curr = "•") ∧
    (∀ t : Tier, change_marker (some t) t = "•") ∧
    (∀ p c : Tier, change_marker (some p) c = "▲" ↔
      ∃ rp rc : ℕ, tierOrder p = some rp ∧ tierOrder c = some rc ∧ rp < rc) ∧
    (∀ p c : Tier, change_marker (some p) c = "▼" ↔
      ∃ rp rc : ℕ, tierOrder p = some rp ∧ tierOrder c = some rc ∧ rc < rp) ∧
    change_marker (some Tier.Green) Tier.Red = "▲" ∧
    change_marker (some Tier.Red) Tier.Green = "▼" := by
  refine ⟨fun c => rfl, fun c => by cases c <;> rfl, fun t => by cases t <;> rfl,
    ?_, ?_, rfl, rfl⟩
  · intro p c
    cases p <;> cases c <;> simp [change_marker, tierOrder, orderGet]
  · intro p c
    cases p <;> cases c <;> simp [change_marker, tierOrder, orderGet]

/-- Filtering the result of a dedup-append for the appended date leaves
exactly the new row. -/
theorem filter_dedup_eq_singleton (l : List HistRow) (D : ℕ) (S : ℤ) :
    (l.filter (fun r => r.1 ≠ D) ++ [(D, S)]).filter (fun r => r.1 = D) = [(D, S)] := by
  rw [List.filter_append]
  have h1 : (l.filter (fun r => r.1 ≠ D)).filter (fun r => r.1 = D) = [] := by
    refine List.filter_eq_nil_iff.mpr ?_
    intro a ha
    have hmem := List.of_mem_filter ha
    simp at hmem ⊢
    exact hmem
  rw [h1]
  simp

/-- Filtering the result of a dedup-append for the other dates returns
the filtered prior rows. -/
theorem filter_dedup_ne (l : List HistRow) (D : ℕ) (S : ℤ) :
    (l.filter (fun r => r.1 ≠ D) ++ [(D, S)]).filter (fun r => r.1 ≠ D) =
      l.filter (fun r => r.1 ≠ D) := by
  rw [List.filter_append, List.filter_filter]
  simp

/-- C5: appending `(D, S1)` and then `(D, S2)` leaves exactly one entry
for date `D`, holding score `S2`, and leaves the entries of every other
date exactly as they were in the starting history. -/
theorem C5_append_idempotent_per_date (f : Option (List HistRow)) (D : ℕ) (S1 S2 : ℤ) :
    (dedup_append_history D S2 (some (dedup_append_history D S1 f))).filter
        (fun r => r.1 = D) = [(D, S2)] ∧
    (dedup_append_history D S2 (some (dedup_append_history D S1 f))).filter
        (fun r => r.1 ≠ D) = (f.getD []).filter (fun r => r.1 ≠ D) := by
  have unf : ∀ (X : List HistRow) (S : ℤ),
      dedup_append_history D S (some X) = X.filter (fun r => r.1 ≠ D) ++ [(D, S)] :=
    fun X S => rfl
  rw [unf (dedup_append_history D S1 f) S2]
  constructor
  · exact filter_dedup_eq_singleton _ D S2
  · rw [filter_dedup_ne]
    cases f with
    | none => simp [dedup_append_history]
    | some l => rw [unf l S1, filter_dedup_ne]; rfl

/-- C6 counterexample: when `last_snapshot.json` exists but is corrupt,
`load_last_snapshot` raises the JSON parse error instead of returning
the empty snapshot. -/
theorem C6_counterexample :
    load_last_snapshot SnapshotFile.corrupt = Except.error "JSONDecodeError" ∧
    load_last_snapshot SnapshotFile.corrupt ≠ Except.ok emptySnapshot :=
  ⟨rfl, by simp [load_last_snapshot]⟩

/-- C6 amended: `load_last_snapshot` returns the empty snapshot when the
file is missing and the stored snapshot when it is valid, but a corrupt
file makes it raise the JSON parse error to the caller. -/
theorem C6_amended_load :
    load_last_snapshot SnapshotFile.missing = Except.ok emptySnapshot ∧
    (∀ s : Snapshot, load_last_snapshot (SnapshotFile.valid s) = Except.ok s) ∧
    load_last_snapshot SnapshotFile.corrupt = Except.error "JSONDecodeError" :=
  ⟨rfl, fun _ => rfl, rfl⟩

/-- The concrete starting history of the C7 counterexample: entries on
days 0 and 1, in ascending order. -/
def exHist : List HistRow := [(0, 10), (1, 20)]

/-- C7 counterexample: re-appending an entry for the older date 0 puts
the new row at the end, so the history handed to the trend display is
no longer sorted by date ascending. -/
theorem C7_counterexample :
    dedup_append_history 0 30 (some exHist) = [(1, 20), (0, 30)] ∧
    ¬ List.Pairwise (fun a b : HistRow => a.1 < b.1)
        (dedup_append_history 0 30 (some exHist)) := by
  constructor
  · rfl
  · intro hp
    rw [show dedup_append_history 0 30 (some exHist) = [(1, 20), (0, 30)] from rfl] at hp
    have := List.rel_of_pairwise_cons hp (List.mem_singleton_self _)
    omega

/-- C7 amended: the history handed to the trend display keeps at most
one entry per date (the latest write), and it is sorted by date
ascending provided the appended date is at least every date already in
the sorted history — the normal case of appending today's date; the
code never re-sorts, so re-appending an older date breaks the order. -/
theorem C7_amended_sorted (h : List HistRow) (D : ℕ) (S : ℤ)
    (hsorted : List.Pairwise (fun a b : HistRow => a.1 < b.1) h)
    (hle : ∀ r ∈ h, r.1 ≤ D) :
    List.Pairwise (fun a b : HistRow => a.1 < b.1) (dedup_append_history D S (some h)) ∧
    (dedup_append_history D S (some h)).filter (fun r => r.1 = D) = [(D, S)] := by
  constructor
  · show List.Pairwise _ (h.filter (fun r => r.1 ≠ D) ++ [(D, S)])
    rw [List.pairwise_append]
    refine ⟨hsorted.sublist (List.filter_sublist _), List.pairwise_singleton _ _, ?_⟩
    intro a ha b hb
    rw [List.mem_singleton] at hb
    subst hb
    have h1 : a ∈ h := List.mem_of_mem_filter ha
    have h2 := List.of_mem_filter ha
    simp at h2
    have h3 := hle a h1
    show a.1 < D
    omega
  · exact filter_dedup_eq_singleton h D S

/-- Witness for the amended C7 at a concrete sorted history and a new
latest date. -/
theorem C7_witness :
    List.Pairwise (fun a b : HistRow => a.1 < b.1) exHist ∧
    (∀ r ∈ exHist, r.1 ≤ 2) ∧
    List.Pairwise (fun a b : HistRow => a.1 < b.1) (dedup_append_history 2 5 (some exHist)) ∧
    (dedup_append_history 2 5 (some exHist)).filter (fun r => r.1 = 2) = [(2, 5)] := by
  have hs : List.Pairwise (fun a b : HistRow => a.1 < b.1) exHist := by
    simp [exHist, List.pairwise_cons]
  exact ⟨hs, by decide, C7_amended_sorted exHist 2 5 hs (by decide)⟩

/-- C8 counterexample: when the underlying write fails,
`save_last_snapshot` raises the I/O error instead of catching it, so no
result is returned to the caller. -/
theorem C8_counterexample :
    save_last_snapshot WriteOutcome.failure 35 [] = Except.error "OSError" ∧
    save_last_snapshot WriteOutcome.failure 35 [] ≠
      Except.ok { crash_probability := some 35, statuses := [] } :=
  ⟨rfl, by simp [save_last_snapshot]⟩

/-- C8 amended: a successful write persists the snapshot, but a failed
write is not caught — the I/O error propagates to the caller and aborts
the rest of the evaluation. -/
theorem C8_amended_save (p : ℤ) (m : List (String × Tier)) :
    save_last_snapshot WriteOutcome.success p m =
      Except.ok { crash_probability := some p, statuses := m } ∧
    save_last_snapshot WriteOutcome.failure p m = Except.error "OSError" :=
  ⟨rfl, rfl⟩

/-- C9: each numeric threshold classifier is monotone in the tier
ordinal — risk-increasing for NVDA P/E, VIX, the yield spread (at every
threshold) and the defense-spend trend, and risk-decreasing (inverted
sense) for the USD reserve share. -/
theorem C9_classifiers_monotone :
    (∀ x y : ℚ, x ≤ y →
      orderGet (classify_nvda_pe (some x)) ≤ orderGet (classify_nvda_pe (some y))) ∧
    (∀ x y : ℚ, x ≤ y →
      orderGet (classify_vix (some x)) ≤ orderGet (classify_vix (some y))) ∧
    (∀ th x y : ℚ, x ≤ y →
      orderGet (classify_yield (some x) th) ≤ orderGet (classify_yield (some y) th)) ∧
    (∀ x y : ℚ, x ≤ y →
      orderGet (classify_def_spend (some x)) ≤ orderGet (classify_def_spend (some y))) ∧
    (∀ x y : ℚ, x ≤ y →
      orderGet (classify_usd_share (some y)) ≤ orderGet (classify_usd_share (some x))) := by
  refine ⟨?_, ?_, ?_, ?_, ?_⟩
  · intro x y hxy
    simp only [classify_nvda_pe]
    split_ifs <;> (simp [orderGet, tierOrder]; try linarith)
  · intro x y hxy
    simp only [classify_vix]
    split_ifs <;> (simp [orderGet, tierOrder]; try linarith)
  · intro th x y hxy
    simp only [classify_yield]
    split_ifs <;> (simp [orderGet, tierOrder]; try linarith)
  · intro x y hxy
    simp only [classify_def_spend]
    split_ifs <;> (simp [orderGet, tierOrder]; try linarith)
  · intro x y hxy
    simp only [classify_usd_share]
    split_ifs <;> (simp [orderGet, tierOrder]; try linarith)

/-- Witness for C9 at concrete inputs 1 ≤ 2 for every classifier. -/
theorem C9_witness :
    ((1 : ℚ) ≤ 2) ∧
    orderGet (classify_nvda_pe (some 1)) ≤ orderGet (classify_nvda_pe (some 2)) ∧
    orderGet (classify_vix (some 1)) ≤ orderGet (classify_vix (some 2)) ∧
    orderGet (classify_yield (some 1) 3) ≤ orderGet (classify_yield (some 2) 3) ∧
    orderGet (classify_def_spend (some 1)) ≤ orderGet (classify_def_spend (some 2)) ∧
    orderGet (classify_usd_share (some 2)) ≤ orderGet (classify_usd_share (some 1)) :=
  ⟨by norm_num, C9_classifiers_monotone.1 1 2 (by norm_num),
   C9_classifiers_monotone.2.1 1 2 (by norm_num),
   C9_classifiers_monotone.2.2.1 3 1 2 (by norm_num),
   C9_classifiers_monotone.2.2.2.1 1 2 (by norm_num),
   C9_classifiers_monotone.2.2.2.2 1 2 (by norm_num)⟩
